import Mathlib

/-!
Shallow embedding of `helpscout-mcp/server.py` (a HelpScout Docs MCP
adapter exposing four read-only tools) and verification of its
specification claims.

JSON values parsed from upstream responses are modelled by `Json`;
the Python-level behaviours the server relies on (dict `.get` with a
default, truthiness, `str()` rendering in f-strings, `str.strip`,
`int` comparison and addition) are modelled explicitly, with the
dynamic-typing failure modes of the source (attribute/type errors on
unexpectedly-shaped values) surfaced as `Err.typeError`.

Each tool takes the API key, its arguments, and an HTTP oracle
`respond : Request → Response`; it returns a `CallResult` recording
the list of HTTP requests issued (empty when the credential check
fails) together with the outcome: either the formatted text or the
raised error (`RuntimeError` from `_check_api_key`, `HTTPStatusError`
from `raise_for_status`, or a dynamic type error).
-/

namespace HelpScout

/-- JSON values, as produced by `resp.json()`. Objects keep the key
order of the wire format; parsed objects have unique keys, and lookup
takes the first binding. -/
inductive Json where
  | null
  | bool (b : Bool)
  | str (s : String)
  | num (n : Int)
  | arr (elems : List Json)
  | obj (fields : List (String × Json))

/-- Errors a tool call can raise. `runtimeError` is the `RuntimeError`
from `_check_api_key`; `httpStatusError` is the httpx `HTTPStatusError`
from `raise_for_status`; `typeError` stands for the Python
attribute/type errors hit when a JSON value has an unexpected shape
(e.g. calling `.get` on a non-dict, or iterating a non-list). -/
inductive Err where
  | runtimeError (msg : String)
  | httpStatusError (status : Nat)
  | typeError
deriving DecidableEq

/-- Python truthiness of a JSON value (`if not items`, `if not article`,
`if collection_id`, `x or y`). -/
def pyTruthy : Json → Bool
  | .null => false
  | .bool b => b
  | .str s => !s.isEmpty
  | .num n => n != 0
  | .arr xs => !xs.isEmpty
  | .obj kvs => !kvs.isEmpty

/-- Python `dict.get(key, default)`. Calling `.get` on a non-dict value
raises (AttributeError), modelled as `typeError`. -/
def Json.get : Json → String → Json → Except Err Json
  | .obj kvs, k, d => .ok ((kvs.lookup k).getD d)
  | _, _, _ => .error .typeError

/-- Iterating a JSON value as a list of items (`for article in items`).
Non-list values raise when iterated or when their elements are used as
dicts, modelled as `typeError`. -/
def Json.asList : Json → Except Err (List Json)
  | .arr xs => .ok xs
  | _ => .error .typeError

/-- Using a JSON value where `str` is required (an element handed to
`"\n".join`). -/
def Json.asStr : Json → Except Err String
  | .str s => .ok s
  | _ => .error .typeError

/-- A JSON value used as a Python `int` (bools are ints in Python). -/
def Json.asIntQ : Json → Option Int
  | .num n => some n
  | .bool b => some (if b then 1 else 0)
  | _ => none

mutual

/-- Python `repr()`, as used by `str()` on containers. String escaping
inside `repr` is not modelled (no claim depends on it). -/
def pyRepr : Json → String
  | .null => "None"
  | .bool b => if b then "True" else "False"
  | .str s => "\x27" ++ s ++ "\x27"
  | .num n => toString n
  | .arr xs => "[" ++ pyReprList xs ++ "]"
  | .obj kvs => "\x7b" ++ pyReprFields kvs ++ "\x7d"

/-- Comma-separated `repr` of list elements. -/
def pyReprList : List Json → String
  | [] => ""
  | [x] => pyRepr x
  | x :: xs => pyRepr x ++ ", " ++ pyReprList xs

/-- Comma-separated `repr` of dict entries. -/
def pyReprFields : List (String × Json) → String
  | [] => ""
  | [(k, v)] => "\x27" ++ k ++ "\x27: " ++ pyRepr v
  | (k, v) :: kvs => "\x27" ++ k ++ "\x27: " ++ pyRepr v ++ ", " ++ pyReprFields kvs

end

/-- Python `str()`, as applied to interpolated values in f-strings. -/
def pyStr (j : Json) : String :=
  match j with
  | .str s => s
  | _ => pyRepr j

/-- The whitespace characters removed by Python `str.strip()`. -/
def pySpace (c : Char) : Bool :=
  c = ' ' || c = '\t' || c = '\n' || c = '\x0d' || c = '\x0b' || c = '\x0c'

/-- Python `str.strip()` with no argument. -/
def pyStripStr (s : String) : String :=
  String.mk (((s.data.dropWhile pySpace).reverse.dropWhile pySpace).reverse)

/-- Python `.strip()` called on a JSON value: raises unless it is a string. -/
def pyStrip : Json → Except Err String
  | .str s => .ok (pyStripStr s)
  | _ => .error .typeError

/-- Python `<` on the JSON values appearing as `page`/`pages`
(`current_page < total_pages`): int/int and str/str compare, mixed
shapes raise `TypeError`. -/
def pyLt (a b : Json) : Except Err Bool :=
  match a.asIntQ, b.asIntQ with
  | some x, some y => .ok (decide (x < y))
  | _, _ =>
    match a, b with
    | .str x, .str y => .ok (decide (x < y))
    | _, _ => .error .typeError

/-- Python `x + 1` on the JSON value bound to `current_page`. -/
def pyAdd1 (a : Json) : Except Err Json :=
  match a.asIntQ with
  | some x => .ok (.num (x + 1))
  | none => .error .typeError

/-- Python `"\n".join(lines)`. -/
def joinNL : List String → String
  | [] => ""
  | [l] => l
  | l :: ls => l ++ "\n" ++ joinNL ls

/-- Sequential effectful map, as the Python `for` loop over items:
the first raised error aborts the whole call. -/
def mapE {α β : Type} (f : α → Except Err β) : List α → Except Err (List β)
  | [] => .ok []
  | a :: as =>
    match f a with
    | .error e => .error e
    | .ok b =>
      match mapE f as with
      | .error e => .error e
      | .ok bs => .ok (b :: bs)

/-- An upstream HTTP GET request as the adapter issues it: URL, query
parameters (in dict insertion order), and the Basic Auth pair. -/
structure Request where
  url : String
  params : List (String × Json)
  authUser : String
  authPass : String

/-- An upstream HTTP response after JSON parsing. -/
structure Response where
  status : Nat
  body : Json

/-- The observable effect of one tool call: the HTTP requests issued
(none when the credential check fails, exactly one otherwise) and the
outcome returned or raised to the MCP framework. -/
structure CallResult where
  requests : List Request
  outcome : Except Err String

def BASE_URL : String := "https://docsapi.helpscout.net/v1"

/-- The `RuntimeError` message raised by `_check_api_key`. -/
def apiKeyErrMsg : String :=
  "HELPSCOUT_API_KEY environment variable is not set. Generate an API key at Help Scout → Your Profile → Authentication → API Keys."

/-- Shared shape of all four tools: `_check_api_key()`, then one
`client.get(...)`, then `resp.raise_for_status()` (httpx: raises
`HTTPStatusError` for any non-2xx status), then the tool-specific
formatting of the parsed JSON body. -/
def runTool (apiKey : String) (req : Request) (respond : Request → Response)
    (format : Json → Except Err String) : CallResult :=
  if apiKey = "" then
    { requests := [], outcome := .error (.runtimeError apiKeyErrMsg) }
  else
    let resp := respond req
    { requests := [req]
      outcome :=
        if 200 ≤ resp.status ∧ resp.status ≤ 299 then
          format resp.body
        else
          .error (.httpStatusError resp.status) }

/-- The per-article block appended by the `search_articles` loop. -/
def searchItemBlock (article : Json) : Except Err (List String) := do
  let nameJ ← article.get "name" (.str "Untitled")
  let idJ ← article.get "id" (.str "")
  let urlJ ← article.get "url" (.str "N/A")
  let previewJ ← article.get "preview" (.str "")
  let preview ← pyStrip previewJ
  pure (["### " ++ pyStr nameJ,
         "- **ID:** `" ++ pyStr idJ ++ "`",
         "- **URL:** " ++ pyStr urlJ]
        ++ (if preview = "" then [] else ["- **Preview:** " ++ preview])
        ++ [""])

/-- The pagination hint appended by `search_articles`. -/
def searchHint (nxt : Json) : String :=
  "_Call search_articles again with page=" ++ pyStr nxt ++ " for more results._"

/-- The `lines` list built by `search_articles` on the non-empty path:
header, one block per article, and the conditional pagination hint. -/
def searchCore (query : String) (page : Int) (envelope itemsJ : Json) :
    Except Err (List String) := do
  let items ← itemsJ.asList
  let totalJ ← envelope.get "count" (.num items.length)
  let pageJ ← envelope.get "page" (.num page)
  let pagesJ ← envelope.get "pages" (.num 1)
  let blocks ← mapE searchItemBlock items
  let lt ← pyLt pageJ pagesJ
  let tail ← if lt then do
      let nxt ← pyAdd1 pageJ
      pure [searchHint nxt]
    else
      pure ([] : List String)
  pure (("Found " ++ pyStr totalJ ++ " article(s) matching \"" ++ query
          ++ "\" (page " ++ pyStr pageJ ++ " of " ++ pyStr pagesJ ++ "):\n")
        :: blocks.flatten ++ tail)

/-- Body of `search_articles` after a successful HTTP exchange. -/
def formatSearch (query : String) (page : Int) (data : Json) : Except Err String := do
  let envelope ← data.get "articles" (.obj [])
  let itemsJ ← envelope.get "items" (.arr [])
  if pyTruthy itemsJ then do
    let ls ← searchCore query page envelope itemsJ
    pure (joinNL ls)
  else
    pure ("No published articles found matching \"" ++ query ++ "\".")

/-- Tool `search_articles(query, collection_id=None, page=1, page_size=20)`. -/
def search_articles (apiKey query : String) (collection_id : Option String)
    (page page_size : Int) (respond : Request → Response) : CallResult :=
  let params : List (String × Json) :=
    [("query", .str query), ("status", .str "published"),
     ("visibility", .str "public"), ("page", .num page),
     ("pageSize", .num (min page_size 100))]
    ++ (match collection_id with
        | some cid => if cid = "" then [] else [("collectionId", Json.str cid)]
        | none => [])
  runTool apiKey
    { url := BASE_URL ++ "/search/articles", params := params
      authUser := apiKey, authPass := "X" }
    respond (formatSearch query page)

/-- Body of `get_article` after a successful HTTP exchange. -/
def formatArticle (article_id : String) (data : Json) : Except Err String := do
  let article ← data.get "article" (.obj [])
  if pyTruthy article then do
    let nameJ ← article.get "name" (.str "Untitled")
    let statusJ ← article.get "status" (.str "unknown")
    let purlJ ← article.get "publicUrl" (.str "N/A")
    let updJ ← article.get "updatedAt" (.str "N/A")
    let viewsJ ← article.get "viewCount" (.num 0)
    let textJ ← article.get "text" .null
    let body ← if pyTruthy textJ then textJ.asStr else pure "_No content available._"
    pure (joinNL
      ["# " ++ pyStr nameJ, "",
       "**Status:** " ++ pyStr statusJ,
       "**Public URL:** " ++ pyStr purlJ,
       "**Last updated:** " ++ pyStr updJ,
       "**Views:** " ++ pyStr viewsJ,
       "", "---", "", body])
  else
    pure ("Article `" ++ article_id ++ "` not found.")

/-- Tool `get_article(article_id)`. -/
def get_article (apiKey article_id : String) (respond : Request → Response) :
    CallResult :=
  runTool apiKey
    { url := BASE_URL ++ "/articles/" ++ article_id, params := []
      authUser := apiKey, authPass := "X" }
    respond (formatArticle article_id)

/-- The per-collection block appended by the `list_collections` loop. -/
def collectionBlock (col : Json) : Except Err (List String) := do
  let nameJ ← col.get "name" (.str "Untitled")
  let idJ ← col.get "id" (.str "")
  let countJ ← col.get "publishedArticleCount" (.num 0)
  let descJ ← col.get "description" (.str "")
  let desc ← pyStrip descJ
  let purlJ ← col.get "publicUrl" (.str "N/A")
  pure (["### " ++ pyStr nameJ,
         "- **ID:** `" ++ pyStr idJ ++ "`",
         "- **Published articles:** " ++ pyStr countJ]
        ++ (if desc = "" then [] else ["- **Description:** " ++ desc])
        ++ ["- **URL:** " ++ pyStr purlJ, ""])

/-- The `lines` list built by `list_collections` on the non-empty path:
header and one block per collection; no pagination hint exists in this
tool. -/
def collectionsCore (page : Int) (envelope itemsJ : Json) :
    Except Err (List String) := do
  let items ← itemsJ.asList
  let totalJ ← envelope.get "count" (.num items.length)
  let pageJ ← envelope.get "page" (.num page)
  let pagesJ ← envelope.get "pages" (.num 1)
  let blocks ← mapE collectionBlock items
  pure (("Found " ++ pyStr totalJ ++ " collection(s) (page " ++ pyStr pageJ
          ++ " of " ++ pyStr pagesJ ++ "):\n")
        :: blocks.flatten)

/-- Body of `list_collections` after a successful HTTP exchange. -/
def formatCollections (page : Int) (data : Json) : Except Err String := do
  let envelope ← data.get "collections" (.obj [])
  let itemsJ ← envelope.get "items" (.arr [])
  if pyTruthy itemsJ then do
    let ls ← collectionsCore page envelope itemsJ
    pure (joinNL ls)
  else
    pure "No collections found."

/-- Tool `list_collections(page=1)`. -/
def list_collections (apiKey : String) (page : Int)
    (respond : Request → Response) : CallResult :=
  runTool apiKey
    { url := BASE_URL ++ "/collections"
      params := [("page", .num page), ("visibility", .str "public"),
                 ("order", .str "asc")]
      authUser := apiKey, authPass := "X" }
    respond (formatCollections page)

/-- The per-article two-line block appended by the `list_articles` loop. -/
def listArticleBlock (article : Json) : Except Err (List String) := do
  let nameJ ← article.get "name" (.str "Untitled")
  let idJ ← article.get "id" (.str "")
  let purlJ ← article.get "publicUrl" (.str "N/A")
  pure ["- **" ++ pyStr nameJ ++ "**",
        "  ID: `" ++ pyStr idJ ++ "`  |  URL: " ++ pyStr purlJ]

/-- The pagination hint appended by `list_articles` (with its leading
newline, as in the source). -/
def listArticlesHint (nxt : Json) : String :=
  "\n_Call list_articles again with page=" ++ pyStr nxt ++ " for more results._"

/-- The `lines` list built by `list_articles` on the non-empty path. -/
def listArticlesCore (collection_id : String) (page : Int) (envelope itemsJ : Json) :
    Except Err (List String) := do
  let items ← itemsJ.asList
  let totalJ ← envelope.get "count" (.num items.length)
  let pageJ ← envelope.get "page" (.num page)
  let pagesJ ← envelope.get "pages" (.num 1)
  let blocks ← mapE listArticleBlock items
  let lt ← pyLt pageJ pagesJ
  let tail ← if lt then do
      let nxt ← pyAdd1 pageJ
      pure [listArticlesHint nxt]
    else
      pure ([] : List String)
  pure (("Found " ++ pyStr totalJ ++ " article(s) in collection `" ++ collection_id
          ++ "` (page " ++ pyStr pageJ ++ " of " ++ pyStr pagesJ ++ "):\n")
        :: blocks.flatten ++ tail)

/-- Body of `list_articles` after a successful HTTP exchange. -/
def formatListArticles (collection_id : String) (page : Int) (data : Json) :
    Except Err String := do
  let envelope ← data.get "articles" (.obj [])
  let itemsJ ← envelope.get "items" (.arr [])
  if pyTruthy itemsJ then do
    let ls ← listArticlesCore collection_id page envelope itemsJ
    pure (joinNL ls)
  else
    pure ("No published articles found in collection `" ++ collection_id ++ "`.")

/-- Tool `list_articles(collection_id, page=1, page_size=50)`. -/
def list_articles (apiKey collection_id : String) (page page_size : Int)
    (respond : Request → Response) : CallResult :=
  runTool apiKey
    { url := BASE_URL ++ "/collections/" ++ collection_id ++ "/articles"
      params := [("page", .num page), ("status", .str "published"),
                 ("pageSize", .num (min page_size 100)),
                 ("sort", .str "name"), ("order", .str "asc")]
      authUser := apiKey, authPass := "X" }
    respond (formatListArticles collection_id page)

/-!  Helper lemmas  -/

/-- First character of a string, used to tell rendered lines apart. -/
def strHead (s : String) : Option Char :=
  s.data.head?

theorem strHead_append (s t : String) (c : Char) (h : strHead s = some c) :
    strHead (s ++ t) = some c := by
  cases hd : s.data with
  | nil => simp [strHead, hd] at h
  | cons c0 cs =>
    rw [strHead, hd] at h
    simp at h
    simp [strHead, String.data_append, hd, h]

/-- A line is hint-free when it is not a pagination hint of either of
the two shapes the server ever appends (`_Call ...` for
`search_articles`, `\n_Call ...` for `list_articles`). -/
def hintFree (l : String) : Prop :=
  ∀ t : String, l ≠ "_Call" ++ t ∧ l ≠ "\n_Call" ++ t

/-- Every line the block/header renderers produce starts with a
character other than `'_'` and `'\n'` (or is empty). -/
def lineOk (l : String) : Prop :=
  strHead l ≠ some '_' ∧ strHead l ≠ some '\n'

theorem lineOk_hintFree (l : String) (h : lineOk l) : hintFree l := by
  intro t
  constructor
  · intro he
    exact h.1 (by rw [he]; exact strHead_append _ _ _ rfl)
  · intro he
    exact h.2 (by rw [he]; exact strHead_append _ _ _ rfl)

theorem lineOk_of_head (l : String) (c : Char) (h1 : strHead l = some c)
    (h2 : c ≠ '_') (h3 : c ≠ '\n') : lineOk l := by
  rw [lineOk, h1]
  exact ⟨by simp [h2], by simp [h3]⟩

theorem lineOk_empty : lineOk "" := by
  rw [lineOk]
  simp [strHead]

theorem joinNL_append_single (ls : List String) (x : String) (h : ls ≠ []) :
    joinNL (ls ++ [x]) = joinNL ls ++ "\n" ++ x := by
  induction ls with
  | nil => exact absurd rfl h
  | cons a as ih =>
    cases as with
    | nil => rfl
    | cons b bs =>
      have step : joinNL ((a :: b :: bs) ++ [x])
          = a ++ "\n" ++ joinNL ((b :: bs) ++ [x]) := rfl
      have h2 : joinNL (a :: b :: bs) = a ++ "\n" ++ joinNL (b :: bs) := rfl
      rw [step, ih (by simp), h2]
      simp [String.append_assoc]

theorem mapE_ok_mem {α β : Type} (f : α → Except Err β) (as : List α)
    (bs : List β) (h : mapE f as = .ok bs) (b : β) (hb : b ∈ bs) :
    ∃ a ∈ as, f a = .ok b := by
  induction as generalizing bs with
  | nil =>
    simp [mapE] at h
    subst h
    simp at hb
  | cons a as ih =>
    rw [mapE] at h
    cases ha : f a with
    | error e => rw [ha] at h; simp at h
    | ok b0 =>
      rw [ha] at h
      cases hrest : mapE f as with
      | error e => rw [hrest] at h; simp at h
      | ok bs0 =>
        rw [hrest] at h
        simp at h
        subst h
        rcases List.mem_cons.mp hb with hb0 | hbs
        · exact ⟨a, by simp, by rw [ha, hb0]⟩
        · rcases ih bs0 hrest hbs with ⟨a1, ha1, hfa1⟩
          exact ⟨a1, by simp [ha1], hfa1⟩

theorem searchItemBlock_lineOk (a : Json) (b : List String)
    (h : searchItemBlock a = .ok b) : ∀ l ∈ b, lineOk l := by
  cases a
  case obj kvs =>
    cases hpv : pyStrip ((kvs.lookup "preview").getD (Json.str "")) with
    | error e =>
      simp [searchItemBlock, Json.get, Bind.bind, Except.bind, Functor.map,
        Except.map, hpv] at h
    | ok pv =>
      simp [searchItemBlock, Json.get, Bind.bind, Except.bind, Functor.map,
        Except.map, pure, Except.pure, hpv] at h
      subst h
      intro l hl
      by_cases hpv0 : pv = ""
      · simp [hpv0] at hl
        rcases hl with rfl | rfl | rfl | rfl
        · exact lineOk_of_head _ _ (strHead_append _ _ _ rfl) (by decide) (by decide)
        · exact lineOk_of_head _ _ (strHead_append _ _ _ (strHead_append _ _ _ rfl)) (by decide) (by decide)
        · exact lineOk_of_head _ _ (strHead_append _ _ _ rfl) (by decide) (by decide)
        · exact lineOk_empty
      · simp [hpv0] at hl
        rcases hl with rfl | rfl | rfl | rfl | rfl
        · exact lineOk_of_head _ _ (strHead_append _ _ _ rfl) (by decide) (by decide)
        · exact lineOk_of_head _ _ (strHead_append _ _ _ (strHead_append _ _ _ rfl)) (by decide) (by decide)
        · exact lineOk_of_head _ _ (strHead_append _ _ _ rfl) (by decide) (by decide)
        · exact lineOk_of_head _ _ (strHead_append _ _ _ rfl) (by decide) (by decide)
        · exact lineOk_empty
  all_goals
    simp [searchItemBlock, Json.get, Bind.bind, Except.bind] at h

theorem collectionBlock_lineOk (a : Json) (b : List String)
    (h : collectionBlock a = .ok b) : ∀ l ∈ b, lineOk l := by
  cases a
  case obj kvs =>
    cases hds : pyStrip ((kvs.lookup "description").getD (Json.str "")) with
    | error e =>
      simp [collectionBlock, Json.get, Bind.bind, Except.bind, Functor.map,
        Except.map, hds] at h
    | ok ds =>
      simp [collectionBlock, Json.get, Bind.bind, Except.bind, Functor.map,
        Except.map, pure, Except.pure, hds] at h
      subst h
      intro l hl
      by_cases hds0 : ds = ""
      · simp [hds0] at hl
        rcases hl with rfl | rfl | rfl | rfl | rfl
        · exact lineOk_of_head _ _ (strHead_append _ _ _ rfl) (by decide) (by decide)
        · exact lineOk_of_head _ _ (strHead_append _ _ _ (strHead_append _ _ _ rfl)) (by decide) (by decide)
        · exact lineOk_of_head _ _ (strHead_append _ _ _ rfl) (by decide) (by decide)
        · exact lineOk_of_head _ _ (strHead_append _ _ _ rfl) (by decide) (by decide)
        · exact lineOk_empty
      · simp [hds0] at hl
        rcases hl with rfl | rfl | rfl | rfl | rfl | rfl
        · exact lineOk_of_head _ _ (strHead_append _ _ _ rfl) (by decide) (by decide)
        · exact lineOk_of_head _ _ (strHead_append _ _ _ (strHead_append _ _ _ rfl)) (by decide) (by decide)
        · exact lineOk_of_head _ _ (strHead_append _ _ _ rfl) (by decide) (by decide)
        · exact lineOk_of_head _ _ (strHead_append _ _ _ rfl) (by decide) (by decide)
        · exact lineOk_of_head _ _ (strHead_append _ _ _ rfl) (by decide) (by decide)
        · exact lineOk_empty
  all_goals
    simp [collectionBlock, Json.get, Bind.bind, Except.bind] at h

theorem listArticleBlock_lineOk (a : Json) (b : List String)
    (h : listArticleBlock a = .ok b) : ∀ l ∈ b, lineOk l := by
  cases a
  case obj kvs =>
    simp [listArticleBlock, Json.get, Bind.bind, Except.bind, Functor.map,
      Except.map, pure, Except.pure] at h
    subst h
    intro l hl
    simp [List.mem_cons] at hl
    rcases hl with rfl | rfl
    · exact lineOk_of_head _ _ (strHead_append _ _ _ (strHead_append _ _ _ rfl)) (by decide) (by decide)
    · exact lineOk_of_head _ _ (strHead_append _ _ _ (strHead_append _ _ _ rfl)) (by decide) (by decide)
  all_goals
    simp [listArticleBlock, Json.get, Bind.bind, Except.bind] at h

theorem runTool_outcome_hit (key : String) (req : Request)
    (respond : Request → Response) (fmt : Json → Except Err String)
    (hk : key ≠ "")
    (hs : 200 ≤ (respond req).status ∧ (respond req).status ≤ 299) :
    (runTool key req respond fmt).outcome = fmt (respond req).body := by
  simp [runTool, hk, hs]

theorem runTool_outcome_200 (key : String) (req : Request) (body : Json)
    (fmt : Json → Except Err String) (hk : key ≠ "") :
    (runTool key req (fun _ => ⟨200, body⟩) fmt).outcome = fmt body := by
  simp [runTool, hk]

theorem strIsEmpty_false (t : String) (h : t ≠ "") : t.isEmpty = false := by
  cases he : t.isEmpty
  · rfl
  · exact absurd ((String.isEmpty_iff t).mp he) h

/-- Last character of a string, used to recognise a trailing
pagination hint (all hints end in `" for more results._"`). -/
def strLast (s : String) : Option Char :=
  s.data.getLast?

theorem strLast_append (s t : String) (h : t.data ≠ []) :
    strLast (s ++ t) = strLast t := by
  simp [strLast, String.data_append, List.getLast?_append_of_ne_nil _ h]

theorem strLast_hint_tail (x q : String) :
    strLast (x ++ q ++ " for more results._") = some '_' := by
  rw [strLast_append _ _ (by decide)]
  rfl

theorem not_hint_suffix (out : String) (hc : strLast out ≠ some '_') :
    ∀ x q pre : String, out ≠ pre ++ (x ++ q ++ " for more results._") := by
  intro x q pre he
  apply hc
  rw [he, strLast_append _ _ (by simp [String.data_append]),
    strLast_hint_tail]

theorem exists_concat {α : Type} (l : List α) (x : α)
    (h : l.getLast? = some x) : ∃ f, l = f ++ [x] := by
  induction l with
  | nil => simp at h
  | cons a as ih =>
    cases as with
    | nil =>
      simp at h
      subst h
      exact ⟨[], rfl⟩
    | cons b bs =>
      have h2 : (b :: bs).getLast? = some x := h
      rcases ih h2 with ⟨f, hf⟩
      exact ⟨a :: f, by rw [List.cons_append, ← hf]⟩

theorem mapE_ne_nil {α β : Type} (f : α → Except Err β) (as : List α)
    (bs : List β) (h : mapE f as = .ok bs) (hne : as ≠ []) : bs ≠ [] := by
  cases as with
  | nil => exact absurd rfl hne
  | cons a as2 =>
    rw [mapE] at h
    cases ha : f a with
    | error e => rw [ha] at h; simp at h
    | ok b0 =>
      rw [ha] at h
      cases hrest : mapE f as2 with
      | error e => rw [hrest] at h; simp at h
      | ok bs0 =>
        rw [hrest] at h
        simp at h
        subst h
        simp

theorem flatten_last (bs : List (List String)) (hne : bs ≠ [])
    (h : ∀ b ∈ bs, b.getLast? = some "") :
    bs.flatten.getLast? = some "" := by
  induction bs with
  | nil => exact absurd rfl hne
  | cons b bs2 ih =>
    cases bs2 with
    | nil =>
      simpa using h b (by simp)
    | cons b2 bs3 =>
      have hrest : (b2 :: bs3).flatten.getLast? = some "" :=
        ih (by simp) (fun b3 hb3 => h b3 (by simp [hb3]))
      have hrne : (b2 :: bs3).flatten ≠ [] := by
        intro hf
        rw [hf] at hrest
        simp at hrest
      rw [List.flatten_cons, List.getLast?_append_of_ne_nil _ hrne]
      exact hrest

theorem searchItemBlock_last (a : Json) (b : List String)
    (h : searchItemBlock a = .ok b) : b.getLast? = some "" := by
  cases a
  case obj kvs =>
    cases hpv : pyStrip ((kvs.lookup "preview").getD (Json.str "")) with
    | error e =>
      simp [searchItemBlock, Json.get, Bind.bind, Except.bind, Functor.map,
        Except.map, hpv] at h
    | ok pv =>
      simp [searchItemBlock, Json.get, Bind.bind, Except.bind, Functor.map,
        Except.map, pure, Except.pure, hpv] at h
      subst h
      by_cases hpv0 : pv = "" <;> simp [hpv0]
  all_goals
    simp [searchItemBlock, Json.get, Bind.bind, Except.bind] at h

theorem collectionBlock_last (a : Json) (b : List String)
    (h : collectionBlock a = .ok b) : b.getLast? = some "" := by
  cases a
  case obj kvs =>
    cases hds : pyStrip ((kvs.lookup "description").getD (Json.str "")) with
    | error e =>
      simp [collectionBlock, Json.get, Bind.bind, Except.bind, Functor.map,
        Except.map, hds] at h
    | ok ds =>
      simp [collectionBlock, Json.get, Bind.bind, Except.bind, Functor.map,
        Except.map, pure, Except.pure, hds] at h
      subst h
      by_cases hds0 : ds = "" <;> simp [hds0]
  all_goals
    simp [collectionBlock, Json.get, Bind.bind, Except.bind] at h

theorem joinNL_last_nl (l0 : List String) (h : l0 ≠ []) :
    strLast (joinNL (l0 ++ [""])) = some '\n' := by
  rw [joinNL_append_single _ _ h]
  simp [strLast, String.data_append]

theorem joinNL_cons_last_nl (hd : String) (rest : List String)
    (h : rest.getLast? = some "") : strLast (joinNL (hd :: rest)) = some '\n' := by
  obtain ⟨front, hf⟩ := exists_concat _ _ h
  rw [hf, show hd :: (front ++ [""]) = (hd :: front) ++ [""] from rfl]
  exact joinNL_last_nl _ (by simp)

/-!  Claim theorems  -/

/-- Claim C1: for every one of the four operations, if the configured
credential is absent or empty then the call raises a configuration
error (`RuntimeError`) whose message tells the operator where to
obtain a credential, and no HTTP request is issued. -/
theorem claim_C1 (key query article_id cid2 : String) (cid : Option String)
    (page page_size page2 page_size2 pg : Int)
    (respond : Request → Response) (hk : key = "") :
    ((search_articles key query cid page page_size respond).requests = [] ∧
      (search_articles key query cid page page_size respond).outcome
        = .error (.runtimeError apiKeyErrMsg)) ∧
    ((get_article key article_id respond).requests = [] ∧
      (get_article key article_id respond).outcome
        = .error (.runtimeError apiKeyErrMsg)) ∧
    ((list_collections key pg respond).requests = [] ∧
      (list_collections key pg respond).outcome
        = .error (.runtimeError apiKeyErrMsg)) ∧
    ((list_articles key cid2 page2 page_size2 respond).requests = [] ∧
      (list_articles key cid2 page2 page_size2 respond).outcome
        = .error (.runtimeError apiKeyErrMsg)) ∧
    (∃ pre post : String,
      apiKeyErrMsg = pre ++ "Generate an API key at Help Scout" ++ post) := by
  subst hk
  refine ⟨⟨rfl, rfl⟩, ⟨rfl, rfl⟩, ⟨rfl, rfl⟩, ⟨rfl, rfl⟩,
    "HELPSCOUT_API_KEY environment variable is not set. ",
    " → Your Profile → Authentication → API Keys.", ?_⟩
  rfl

/-- Witness for C1 at a concrete call. -/
theorem claim_C1_witness :
    ((search_articles "" "q" none 1 20 (fun _ => ⟨200, .null⟩)).requests = [] ∧
      (search_articles "" "q" none 1 20 (fun _ => ⟨200, .null⟩)).outcome
        = .error (.runtimeError apiKeyErrMsg)) ∧
    ((get_article "" "a1" (fun _ => ⟨200, .null⟩)).requests = [] ∧
      (get_article "" "a1" (fun _ => ⟨200, .null⟩)).outcome
        = .error (.runtimeError apiKeyErrMsg)) ∧
    ((list_collections "" 1 (fun _ => ⟨200, .null⟩)).requests = [] ∧
      (list_collections "" 1 (fun _ => ⟨200, .null⟩)).outcome
        = .error (.runtimeError apiKeyErrMsg)) ∧
    ((list_articles "" "c1" 1 50 (fun _ => ⟨200, .null⟩)).requests = [] ∧
      (list_articles "" "c1" 1 50 (fun _ => ⟨200, .null⟩)).outcome
        = .error (.runtimeError apiKeyErrMsg)) ∧
    (∃ pre post : String,
      apiKeyErrMsg = pre ++ "Generate an API key at Help Scout" ++ post) :=
  claim_C1 "" "q" "a1" "c1" none 1 20 1 50 1 (fun _ => ⟨200, .null⟩) rfl

/-- Claim C2: for every operation, an upstream HTTP response with
status ≥ 400 makes the operation fail with an upstream error carrying
that status; no formatted text is returned. -/
theorem claim_C2 (key query article_id cid2 : String) (cid : Option String)
    (page page_size page2 page_size2 pg : Int) (resp : Response)
    (hk : key ≠ "") (hs : 400 ≤ resp.status) :
    (search_articles key query cid page page_size (fun _ => resp)).outcome
      = .error (.httpStatusError resp.status) ∧
    (get_article key article_id (fun _ => resp)).outcome
      = .error (.httpStatusError resp.status) ∧
    (list_collections key pg (fun _ => resp)).outcome
      = .error (.httpStatusError resp.status) ∧
    (list_articles key cid2 page2 page_size2 (fun _ => resp)).outcome
      = .error (.httpStatusError resp.status) := by
  have hns : ¬(200 ≤ resp.status ∧ resp.status ≤ 299) := by omega
  refine ⟨?_, ?_, ?_, ?_⟩ <;>
    simp [search_articles, get_article, list_collections, list_articles,
      runTool, hk, hns]

/-- Witness for C2 at a concrete 404 response. -/
theorem claim_C2_witness :
    (search_articles "k" "q" none 1 20 (fun _ => ⟨404, .null⟩)).outcome
      = .error (.httpStatusError (Response.mk 404 .null).status) ∧
    (get_article "k" "a1" (fun _ => ⟨404, .null⟩)).outcome
      = .error (.httpStatusError (Response.mk 404 .null).status) ∧
    (list_collections "k" 1 (fun _ => ⟨404, .null⟩)).outcome
      = .error (.httpStatusError (Response.mk 404 .null).status) ∧
    (list_articles "k" "c1" 1 50 (fun _ => ⟨404, .null⟩)).outcome
      = .error (.httpStatusError (Response.mk 404 .null).status) :=
  claim_C2 "k" "q" "a1" "c1" none 1 20 1 50 1 ⟨404, .null⟩
    (by decide) (by decide)

/-- Claim C4: every `search_articles` / `list_articles` call sends
`pageSize = min(page_size, 100)` in its single upstream request —
values above 100 are capped, never rejected. -/
theorem claim_C4 (key query cid2 : String) (cid : Option String)
    (page page_size page2 page_size2 : Int)
    (respond respond2 : Request → Response) (hk : key ≠ "") :
    (search_articles key query cid page page_size respond).requests.map
        (fun r => r.params.lookup "pageSize")
      = [some (Json.num (min page_size 100))] ∧
    (list_articles key cid2 page2 page_size2 respond2).requests.map
        (fun r => r.params.lookup "pageSize")
      = [some (Json.num (min page_size2 100))] := by
  constructor <;>
    simp [search_articles, list_articles, runTool, hk] <;> rfl

/-- Witness for C4 with `page_size = 500`, capped to 100. -/
theorem claim_C4_witness :
    (search_articles "k" "q" none 1 500 (fun _ => ⟨200, .null⟩)).requests.map
        (fun r => r.params.lookup "pageSize")
      = [some (Json.num (min 500 100))] ∧
    (list_articles "k" "c1" 1 500 (fun _ => ⟨200, .null⟩)).requests.map
        (fun r => r.params.lookup "pageSize")
      = [some (Json.num (min 500 100))] :=
  claim_C4 "k" "q" "c1" none 1 500 1 500 (fun _ => ⟨200, .null⟩)
    (fun _ => ⟨200, .null⟩) (by decide)

/-- Claim C9: `search_articles` with `collection_id = ""` behaves
identically to a call with no collection filter, and the issued
request carries no `collectionId` parameter. -/
theorem claim_C9 (key query : String) (page page_size : Int)
    (respond : Request → Response) :
    search_articles key query (some "") page page_size respond
      = search_articles key query none page page_size respond ∧
    ∀ r ∈ (search_articles key query (some "") page page_size respond).requests,
      r.params.lookup "collectionId" = none := by
  constructor
  · rfl
  · by_cases hk : key = ""
    · simp [search_articles, runTool, hk]
    · simp [search_articles, runTool, hk]
      rintro a b (⟨rfl, h⟩ | ⟨rfl, h⟩ | ⟨rfl, h⟩ | ⟨rfl, h⟩ | ⟨rfl, h⟩) <;>
        decide

/-- Witness for C9 at a concrete call. -/
theorem claim_C9_witness :
    search_articles "k" "q" (some "") 1 20 (fun _ => ⟨200, .null⟩)
      = search_articles "k" "q" none 1 20 (fun _ => ⟨200, .null⟩) ∧
    ∀ r ∈ (search_articles "k" "q" (some "") 1 20
        (fun _ => ⟨200, .null⟩)).requests,
      r.params.lookup "collectionId" = none :=
  claim_C9 "k" "q" 1 20 (fun _ => ⟨200, .null⟩)

/-- Claim C5: for the three list-style operations, a 200 response
whose items list is empty, or whose expected envelope key is absent
entirely, yields the literal empty-result sentence (naming the query
or collection where applicable) as a successful outcome, never an
error. -/
theorem claim_C5 (key query cid2 : String) (cid : Option String)
    (page page_size page2 page_size2 pg : Int)
    (dkvs ekvs : List (String × Json)) (hk : key ≠ "") :
    (dkvs.lookup "articles" = none →
      (search_articles key query cid page page_size
          (fun _ => ⟨200, .obj dkvs⟩)).outcome
        = .ok ("No published articles found matching \"" ++ query ++ "\".")) ∧
    (dkvs.lookup "articles" = some (.obj ekvs) →
      ekvs.lookup "items" = some (.arr []) →
      (search_articles key query cid page page_size
          (fun _ => ⟨200, .obj dkvs⟩)).outcome
        = .ok ("No published articles found matching \"" ++ query ++ "\".")) ∧
    (dkvs.lookup "collections" = none →
      (list_collections key pg (fun _ => ⟨200, .obj dkvs⟩)).outcome
        = .ok "No collections found.") ∧
    (dkvs.lookup "collections" = some (.obj ekvs) →
      ekvs.lookup "items" = some (.arr []) →
      (list_collections key pg (fun _ => ⟨200, .obj dkvs⟩)).outcome
        = .ok "No collections found.") ∧
    (dkvs.lookup "articles" = none →
      (list_articles key cid2 page2 page_size2
          (fun _ => ⟨200, .obj dkvs⟩)).outcome
        = .ok ("No published articles found in collection `" ++ cid2 ++ "`.")) ∧
    (dkvs.lookup "articles" = some (.obj ekvs) →
      ekvs.lookup "items" = some (.arr []) →
      (list_articles key cid2 page2 page_size2
          (fun _ => ⟨200, .obj dkvs⟩)).outcome
        = .ok ("No published articles found in collection `" ++ cid2 ++ "`.")) := by
  refine ⟨fun ha => ?_, fun ha hi => ?_, fun ha => ?_, fun ha hi => ?_,
    fun ha => ?_, fun ha hi => ?_⟩
  · refine Eq.trans
      (runTool_outcome_200 key _ (.obj dkvs) (formatSearch query page) hk) ?_
    simp [formatSearch, Json.get, ha, pyTruthy, Bind.bind, Except.bind,
      pure, Except.pure]
  · refine Eq.trans
      (runTool_outcome_200 key _ (.obj dkvs) (formatSearch query page) hk) ?_
    simp [formatSearch, Json.get, ha, hi, pyTruthy, Bind.bind, Except.bind,
      pure, Except.pure]
  · refine Eq.trans
      (runTool_outcome_200 key _ (.obj dkvs) (formatCollections pg) hk) ?_
    simp [formatCollections, Json.get, ha, pyTruthy, Bind.bind, Except.bind,
      pure, Except.pure]
  · refine Eq.trans
      (runTool_outcome_200 key _ (.obj dkvs) (formatCollections pg) hk) ?_
    simp [formatCollections, Json.get, ha, hi, pyTruthy, Bind.bind,
      Except.bind, pure, Except.pure]
  · refine Eq.trans
      (runTool_outcome_200 key _ (.obj dkvs) (formatListArticles cid2 page2) hk) ?_
    simp [formatListArticles, Json.get, ha, pyTruthy, Bind.bind, Except.bind,
      pure, Except.pure]
  · refine Eq.trans
      (runTool_outcome_200 key _ (.obj dkvs) (formatListArticles cid2 page2) hk) ?_
    simp [formatListArticles, Json.get, ha, hi, pyTruthy, Bind.bind,
      Except.bind, pure, Except.pure]

/-- Witness for C5 at concrete response bodies. -/
theorem claim_C5_witness :
    (List.lookup "articles" ([] : List (String × Json)) = none →
      (search_articles "k" "q" none 1 20 (fun _ => ⟨200, .obj []⟩)).outcome
        = .ok ("No published articles found matching \"" ++ "q" ++ "\".")) ∧
    (List.lookup "articles" ([] : List (String × Json))
        = some (.obj [("items", .arr [])]) →
      List.lookup "items" [("items", Json.arr [])] = some (.arr []) →
      (search_articles "k" "q" none 1 20 (fun _ => ⟨200, .obj []⟩)).outcome
        = .ok ("No published articles found matching \"" ++ "q" ++ "\".")) ∧
    (List.lookup "collections" ([] : List (String × Json)) = none →
      (list_collections "k" 1 (fun _ => ⟨200, .obj []⟩)).outcome
        = .ok "No collections found.") ∧
    (List.lookup "collections" ([] : List (String × Json))
        = some (.obj [("items", .arr [])]) →
      List.lookup "items" [("items", Json.arr [])] = some (.arr []) →
      (list_collections "k" 1 (fun _ => ⟨200, .obj []⟩)).outcome
        = .ok "No collections found.") ∧
    (List.lookup "articles" ([] : List (String × Json)) = none →
      (list_articles "k" "c9" 1 50 (fun _ => ⟨200, .obj []⟩)).outcome
        = .ok ("No published articles found in collection `" ++ "c9" ++ "`.")) ∧
    (List.lookup "articles" ([] : List (String × Json))
        = some (.obj [("items", .arr [])]) →
      List.lookup "items" [("items", Json.arr [])] = some (.arr []) →
      (list_articles "k" "c9" 1 50 (fun _ => ⟨200, .obj []⟩)).outcome
        = .ok ("No published articles found in collection `" ++ "c9" ++ "`.")) :=
  claim_C5 "k" "q" "c9" none 1 20 1 50 1 [] [("items", .arr [])] (by decide)

/-- Claim C6: `get_article` against a 200 response whose `article` key
is missing or empty returns the literal not-found sentence naming the
identifier, as a success. -/
theorem claim_C6 (key aid : String) (dkvs : List (String × Json))
    (hk : key ≠ "")
    (h : dkvs.lookup "article" = none ∨
      dkvs.lookup "article" = some (.obj [])) :
    (get_article key aid (fun _ => ⟨200, .obj dkvs⟩)).outcome
      = .ok ("Article `" ++ aid ++ "` not found.") := by
  refine Eq.trans
    (runTool_outcome_200 key _ (.obj dkvs) (formatArticle aid) hk) ?_
  rcases h with h | h <;>
    simp [formatArticle, Json.get, h, pyTruthy, Bind.bind, Except.bind,
      pure, Except.pure]

/-- Witness for C6: both the missing-key and the empty-payload case. -/
theorem claim_C6_witness :
    (get_article "k" "missing-id" (fun _ => ⟨200, .obj []⟩)).outcome
      = .ok ("Article `" ++ "missing-id" ++ "` not found.") :=
  claim_C6 "k" "missing-id" [] (by decide) (Or.inl rfl)

/-- Claim C7: `get_article` on a found article renders the title
heading, then status, public URL, last-updated timestamp and view
count, then a separator, then the full body text; an empty or absent
body renders the literal placeholder instead. -/
theorem claim_C7 (key aid nm st pu up : String) (vc : Int) (t : String)
    (hk : key ≠ "") :
    ((get_article key aid (fun _ => ⟨200,
        .obj [("article", .obj [("name", .str nm), ("status", .str st),
          ("publicUrl", .str pu), ("updatedAt", .str up),
          ("viewCount", .num vc), ("text", .str t)])]⟩)).outcome
      = .ok (joinNL ["# " ++ nm, "", "**Status:** " ++ st,
          "**Public URL:** " ++ pu, "**Last updated:** " ++ up,
          "**Views:** " ++ toString vc, "", "---", "",
          if t = "" then "_No content available._" else t])) ∧
    ((get_article key aid (fun _ => ⟨200,
        .obj [("article", .obj [("name", .str nm), ("status", .str st),
          ("publicUrl", .str pu), ("updatedAt", .str up),
          ("viewCount", .num vc)])]⟩)).outcome
      = .ok (joinNL ["# " ++ nm, "", "**Status:** " ++ st,
          "**Public URL:** " ++ pu, "**Last updated:** " ++ up,
          "**Views:** " ++ toString vc, "", "---", "",
          "_No content available._"])) := by
  constructor
  · refine Eq.trans
      (runTool_outcome_200 key _ _ (formatArticle aid) hk) ?_
    by_cases ht : t = ""
    · subst ht
      simp [formatArticle, Json.get, List.lookup, pyTruthy, pyStr, pyRepr,
        Json.asStr, Bind.bind, Except.bind, pure, Except.pure]
      intro h
      exact absurd h (by decide)
    · simp [formatArticle, Json.get, List.lookup, pyTruthy, pyStr, pyRepr,
        Json.asStr, strIsEmpty_false t ht, ht, Bind.bind, Except.bind,
        pure, Except.pure]
  · refine Eq.trans
      (runTool_outcome_200 key _ _ (formatArticle aid) hk) ?_
    simp [formatArticle, Json.get, List.lookup, pyTruthy, pyStr, pyRepr,
      Json.asStr, Bind.bind, Except.bind, pure, Except.pure]

/-- Witness for C7 at a concrete article with empty body. -/
theorem claim_C7_witness :
    ((get_article "k" "a1" (fun _ => ⟨200,
        .obj [("article", .obj [("name", .str "T"), ("status", .str "published"),
          ("publicUrl", .str "u"), ("updatedAt", .str "d"),
          ("viewCount", .num 7), ("text", .str "")])]⟩)).outcome
      = .ok (joinNL ["# " ++ "T", "", "**Status:** " ++ "published",
          "**Public URL:** " ++ "u", "**Last updated:** " ++ "d",
          "**Views:** " ++ toString (7 : Int), "", "---", "",
          if ("" : String) = "" then "_No content available._" else ""])) ∧
    ((get_article "k" "a1" (fun _ => ⟨200,
        .obj [("article", .obj [("name", .str "T"), ("status", .str "published"),
          ("publicUrl", .str "u"), ("updatedAt", .str "d"),
          ("viewCount", .num 7)])]⟩)).outcome
      = .ok (joinNL ["# " ++ "T", "", "**Status:** " ++ "published",
          "**Public URL:** " ++ "u", "**Last updated:** " ++ "d",
          "**Views:** " ++ toString (7 : Int), "", "---", "",
          "_No content available._"])) :=
  claim_C7 "k" "a1" "T" "published" "u" "d" 7 "" (by decide)

/-- Claim C10: a non-empty whitespace-only body text in `get_article`
is rendered verbatim (no placeholder), whereas a whitespace-only
preview in `search_articles` is stripped and its line omitted. -/
theorem claim_C10 (key aid w nm st pu up : String) (vc : Int)
    (nm2 i2 u2 : String) (hk : key ≠ "")
    (hw : pyStripStr w = "") (hne : w ≠ "") :
    ((get_article key aid (fun _ => ⟨200,
        .obj [("article", .obj [("name", .str nm), ("status", .str st),
          ("publicUrl", .str pu), ("updatedAt", .str up),
          ("viewCount", .num vc), ("text", .str w)])]⟩)).outcome
      = .ok (joinNL ["# " ++ nm, "", "**Status:** " ++ st,
          "**Public URL:** " ++ pu, "**Last updated:** " ++ up,
          "**Views:** " ++ toString vc, "", "---", "", w])) ∧
    (searchItemBlock (.obj [("name", .str nm2), ("id", .str i2),
        ("url", .str u2), ("preview", .str w)])
      = .ok ["### " ++ nm2, "- **ID:** `" ++ i2 ++ "`",
          "- **URL:** " ++ u2, ""]) := by
  constructor
  · refine Eq.trans
      (runTool_outcome_200 key _ _ (formatArticle aid) hk) ?_
    simp [formatArticle, Json.get, List.lookup, pyTruthy, pyStr, pyRepr,
      Json.asStr, strIsEmpty_false w hne, Bind.bind, Except.bind,
      pure, Except.pure]
  · simp [searchItemBlock, Json.get, List.lookup, pyStrip, pyStr, hw,
      Bind.bind, Except.bind, Functor.map, Except.map, pure, Except.pure]

/-- Witness for C10 with a one-space body/preview. -/
theorem claim_C10_witness :
    ((get_article "k" "a1" (fun _ => ⟨200,
        .obj [("article", .obj [("name", .str "T"), ("status", .str "s"),
          ("publicUrl", .str "u"), ("updatedAt", .str "d"),
          ("viewCount", .num 3), ("text", .str " ")])]⟩)).outcome
      = .ok (joinNL ["# " ++ "T", "", "**Status:** " ++ "s",
          "**Public URL:** " ++ "u", "**Last updated:** " ++ "d",
          "**Views:** " ++ toString (3 : Int), "", "---", "", " "])) ∧
    (searchItemBlock (.obj [("name", .str "N"), ("id", .str "i"),
        ("url", .str "u"), ("preview", .str " ")])
      = .ok ["### " ++ "N", "- **ID:** `" ++ "i" ++ "`",
          "- **URL:** " ++ "u", ""]) :=
  claim_C10 "k" "a1" " " "T" "s" "u" "d" 3 "N" "i" "u" (by decide)
    (by decide) (by decide)

theorem listIsEmpty_false {α : Type} (l : List α) (h : l ≠ []) :
    l.isEmpty = false := by
  cases l
  · exact absurd rfl h
  · rfl

/-- Evaluation of `searchCore` on a well-typed envelope: header, the
blocks of the items, and the pagination hint exactly when
`page < pages`. Being a function, it determines the line list of a
response uniquely. -/
theorem searchCore_concrete (query : String) (page : Int) (its : List Json)
    (c : Json) (p n : Int) (bs : List (List String))
    (hb : mapE searchItemBlock its = .ok bs) :
    searchCore query page (.obj [("items", .arr its), ("count", c),
        ("page", .num p), ("pages", .num n)]) (.arr its)
      = .ok (("Found " ++ pyStr c ++ " article(s) matching \"" ++ query
          ++ "\" (page " ++ pyStr (.num p) ++ " of " ++ pyStr (.num n) ++ "):\n")
          :: bs.flatten
          ++ (if p < n then [searchHint (.num (p + 1))] else [])) := by
  by_cases hlt : p < n <;>
    simp [searchCore, Json.get, List.lookup, Json.asList, hb, pyLt,
      Json.asIntQ, pyAdd1, hlt, Bind.bind, Except.bind, pure, Except.pure]

/-- Evaluation of `listArticlesCore` on a well-typed envelope: header,
blocks, and the pagination hint exactly when `page < pages`. -/
theorem listArticlesCore_concrete (cid2 : String) (page : Int)
    (its : List Json) (c : Json) (p n : Int) (bs : List (List String))
    (hb : mapE listArticleBlock its = .ok bs) :
    listArticlesCore cid2 page (.obj [("items", .arr its), ("count", c),
        ("page", .num p), ("pages", .num n)]) (.arr its)
      = .ok (("Found " ++ pyStr c ++ " article(s) in collection `" ++ cid2
          ++ "` (page " ++ pyStr (.num p) ++ " of " ++ pyStr (.num n) ++ "):\n")
          :: bs.flatten
          ++ (if p < n then [listArticlesHint (.num (p + 1))] else [])) := by
  by_cases hlt : p < n <;>
    simp [listArticlesCore, Json.get, List.lookup, Json.asList, hb, pyLt,
      Json.asIntQ, pyAdd1, hlt, Bind.bind, Except.bind, pure, Except.pure]

/-- Evaluation of `formatSearch` on a well-typed non-empty envelope:
header, blocks, and the pagination hint exactly when `page < pages`. -/
theorem formatSearch_concrete (query : String) (page : Int) (its : List Json)
    (c : Json) (p n : Int) (bs : List (List String)) (hne : its ≠ [])
    (hb : mapE searchItemBlock its = .ok bs) :
    formatSearch query page (.obj [("articles", .obj [("items", .arr its),
        ("count", c), ("page", .num p), ("pages", .num n)])])
      = .ok (joinNL (("Found " ++ pyStr c ++ " article(s) matching \"" ++ query
          ++ "\" (page " ++ pyStr (.num p) ++ " of " ++ pyStr (.num n) ++ "):\n")
          :: bs.flatten
          ++ (if p < n then [searchHint (.num (p + 1))] else []))) := by
  have hie : its.isEmpty = false := listIsEmpty_false its hne
  by_cases hlt : p < n <;>
    simp [formatSearch, searchCore, Json.get, List.lookup, Json.asList,
      pyTruthy, hie, hb, pyLt, Json.asIntQ, pyAdd1, hlt, Bind.bind,
      Except.bind, pure, Except.pure]

/-- Evaluation of `formatListArticles` on a well-typed non-empty
envelope: header, blocks, and the pagination hint exactly when
`page < pages`. -/
theorem formatListArticles_concrete (cid2 : String) (page : Int)
    (its : List Json) (c : Json) (p n : Int) (bs : List (List String))
    (hne : its ≠ []) (hb : mapE listArticleBlock its = .ok bs) :
    formatListArticles cid2 page (.obj [("articles", .obj [("items", .arr its),
        ("count", c), ("page", .num p), ("pages", .num n)])])
      = .ok (joinNL (("Found " ++ pyStr c ++ " article(s) in collection `"
          ++ cid2 ++ "` (page " ++ pyStr (.num p) ++ " of " ++ pyStr (.num n)
          ++ "):\n")
          :: bs.flatten
          ++ (if p < n then [listArticlesHint (.num (p + 1))] else []))) := by
  have hie : its.isEmpty = false := listIsEmpty_false its hne
  by_cases hlt : p < n <;>
    simp [formatListArticles, listArticlesCore, Json.get, List.lookup,
      Json.asList, pyTruthy, hie, hb, pyLt, Json.asIntQ, pyAdd1, hlt,
      Bind.bind, Except.bind, pure, Except.pure]

/-- Claim C3: for `search_articles` and `list_articles`, a successful
response whose envelope has `page = p` and `pages = n` with `p < n`
makes the rendered text end with a hint naming `page = p + 1`; with
`p ≥ n` no hint is appended: the line list the program builds (pinned
uniquely by the core rendering function) contains no hint-shaped line,
and for `search_articles` the output moreover never ends with a
hint-shaped string. -/
theorem claim_C3 (key query cid2 : String) (cid : Option String)
    (page page_size page2 page_size2 : Int) (p n : Int) (c c2 : Json)
    (its its2 : List Json) (bs bs2 : List (List String))
    (hk : key ≠ "") (hne : its ≠ []) (hb : mapE searchItemBlock its = .ok bs)
    (hne2 : its2 ≠ []) (hb2 : mapE listArticleBlock its2 = .ok bs2) :
    (p < n →
      (∃ pre, (search_articles key query cid page page_size
          (fun _ => ⟨200, .obj [("articles", .obj [("items", .arr its),
            ("count", c), ("page", .num p), ("pages", .num n)])]⟩)).outcome
        = .ok (pre ++ searchHint (.num (p + 1)))) ∧
      (∃ pre2, (list_articles key cid2 page2 page_size2
          (fun _ => ⟨200, .obj [("articles", .obj [("items", .arr its2),
            ("count", c2), ("page", .num p), ("pages", .num n)])]⟩)).outcome
        = .ok (pre2 ++ listArticlesHint (.num (p + 1))))) ∧
    (n ≤ p →
      (∃ ls,
        searchCore query page (.obj [("items", .arr its), ("count", c),
            ("page", .num p), ("pages", .num n)]) (.arr its) = .ok ls ∧
        (search_articles key query cid page page_size
          (fun _ => ⟨200, .obj [("articles", .obj [("items", .arr its),
            ("count", c), ("page", .num p), ("pages", .num n)])]⟩)).outcome
          = .ok (joinNL ls) ∧
        (∀ l ∈ ls, hintFree l) ∧
        (∀ q pre : String,
          joinNL ls ≠ pre ++ ("_Call search_articles again with page=" ++ q
            ++ " for more results._"))) ∧
      (∃ ls2,
        listArticlesCore cid2 page2 (.obj [("items", .arr its2),
            ("count", c2), ("page", .num p), ("pages", .num n)]) (.arr its2)
          = .ok ls2 ∧
        (list_articles key cid2 page2 page_size2
          (fun _ => ⟨200, .obj [("articles", .obj [("items", .arr its2),
            ("count", c2), ("page", .num p), ("pages", .num n)])]⟩)).outcome
          = .ok (joinNL ls2) ∧
        ∀ l ∈ ls2, hintFree l)) := by
  have hS0 : (search_articles key query cid page page_size
      (fun _ => ⟨200, .obj [("articles", .obj [("items", .arr its),
        ("count", c), ("page", .num p), ("pages", .num n)])]⟩)).outcome
      = formatSearch query page (.obj [("articles", .obj [("items", .arr its),
        ("count", c), ("page", .num p), ("pages", .num n)])]) :=
    runTool_outcome_200 key _ _ _ hk
  have hL0 : (list_articles key cid2 page2 page_size2
      (fun _ => ⟨200, .obj [("articles", .obj [("items", .arr its2),
        ("count", c2), ("page", .num p), ("pages", .num n)])]⟩)).outcome
      = formatListArticles cid2 page2 (.obj [("articles", .obj
        [("items", .arr its2), ("count", c2), ("page", .num p),
          ("pages", .num n)])]) :=
    runTool_outcome_200 key _ _ _ hk
  have hcompS := hS0.trans (formatSearch_concrete query page its c p n bs hne hb)
  have hcompL := hL0.trans
    (formatListArticles_concrete cid2 page2 its2 c2 p n bs2 hne2 hb2)
  constructor
  · intro hlt
    rw [if_pos hlt] at hcompS hcompL
    rw [show ∀ hd : String, ∀ t : List String, ∀ x : String,
        hd :: t ++ [x] = (hd :: t) ++ [x] from fun hd t x => rfl] at hcompS hcompL
    rw [joinNL_append_single _ _ (by simp)] at hcompS
    rw [joinNL_append_single _ _ (by simp)] at hcompL
    exact ⟨⟨_, hcompS⟩, ⟨_, hcompL⟩⟩
  · intro hle
    rw [if_neg (not_lt.mpr hle), List.append_nil] at hcompS hcompL
    have hcS := searchCore_concrete query page its c p n bs hb
    have hcL := listArticlesCore_concrete cid2 page2 its2 c2 p n bs2 hb2
    rw [if_neg (not_lt.mpr hle), List.append_nil] at hcS hcL
    have hfl : bs.flatten.getLast? = some "" :=
      flatten_last bs (mapE_ne_nil _ _ _ hb hne) (fun b hbm => by
        rcases mapE_ok_mem _ _ _ hb b hbm with ⟨a, ha2, hfa⟩
        exact searchItemBlock_last a b hfa)
    constructor
    · refine ⟨_, hcS, hcompS, ?_, ?_⟩
      · intro l hl
        rcases List.mem_cons.mp hl with rfl | hl2
        · refine lineOk_hintFree _ (lineOk_of_head _ 'F' ?_ (by decide) (by decide))
          repeat apply strHead_append
          rfl
        · rcases List.mem_flatten.mp hl2 with ⟨b, hbmem, hlb⟩
          rcases mapE_ok_mem _ _ _ hb b hbmem with ⟨a, ha, hfa⟩
          exact lineOk_hintFree _ (searchItemBlock_lineOk a b hfa l hlb)
      · intro q pre
        refine not_hint_suffix _ ?_ _ q pre
        rw [joinNL_cons_last_nl _ _ hfl]
        decide
    · refine ⟨_, hcL, hcompL, ?_⟩
      intro l hl
      rcases List.mem_cons.mp hl with rfl | hl2
      · refine lineOk_hintFree _ (lineOk_of_head _ 'F' ?_ (by decide) (by decide))
        repeat apply strHead_append
        rfl
      · rcases List.mem_flatten.mp hl2 with ⟨b, hbmem, hlb⟩
        rcases mapE_ok_mem _ _ _ hb2 b hbmem with ⟨a, ha, hfa⟩
        exact lineOk_hintFree _ (listArticleBlock_lineOk a b hfa l hlb)

/-- Witness for C3: the `p < n` half at page 1 of 3 and the `p ≥ n`
half at page 3 of 3, each on a one-article response. -/
theorem claim_C3_witness :
    (((1 : Int) < 3 →
      (∃ pre, (search_articles "k" "q" none 1 20
          (fun _ => ⟨200, .obj [("articles", .obj [("items", .arr [.obj []]),
            ("count", .num 9), ("page", .num 1), ("pages", .num 3)])]⟩)).outcome
        = .ok (pre ++ searchHint (.num ((1 : Int) + 1)))) ∧
      (∃ pre2, (list_articles "k" "c1" 1 50
          (fun _ => ⟨200, .obj [("articles", .obj [("items", .arr [.obj []]),
            ("count", .num 9), ("page", .num 1), ("pages", .num 3)])]⟩)).outcome
        = .ok (pre2 ++ listArticlesHint (.num ((1 : Int) + 1)))))) ∧
    ((3 : Int) ≤ 3 →
      (∃ ls,
        searchCore "q" 1 (.obj [("items", .arr [.obj []]), ("count", .num 9),
            ("page", .num 3), ("pages", .num 3)]) (.arr [.obj []]) = .ok ls ∧
        (search_articles "k" "q" none 1 20
          (fun _ => ⟨200, .obj [("articles", .obj [("items", .arr [.obj []]),
            ("count", .num 9), ("page", .num 3), ("pages", .num 3)])]⟩)).outcome
          = .ok (joinNL ls) ∧
        (∀ l ∈ ls, hintFree l) ∧
        (∀ q pre : String,
          joinNL ls ≠ pre ++ ("_Call search_articles again with page=" ++ q
            ++ " for more results._"))) ∧
      (∃ ls2,
        listArticlesCore "c1" 1 (.obj [("items", .arr [.obj []]),
            ("count", .num 9), ("page", .num 3), ("pages", .num 3)])
            (.arr [.obj []]) = .ok ls2 ∧
        (list_articles "k" "c1" 1 50
          (fun _ => ⟨200, .obj [("articles", .obj [("items", .arr [.obj []]),
            ("count", .num 9), ("page", .num 3), ("pages", .num 3)])]⟩)).outcome
          = .ok (joinNL ls2) ∧
        ∀ l ∈ ls2, hintFree l)) :=
  ⟨(claim_C3 "k" "q" "c1" none 1 20 1 50 1 3 (.num 9) (.num 9) [.obj []]
      [.obj []] [["### Untitled", "- **ID:** ``", "- **URL:** N/A", ""]]
      [["- **Untitled**", "  ID: ``  |  URL: N/A"]]
      (by decide) (by simp) rfl (by simp) rfl).1,
    (claim_C3 "k" "q" "c1" none 1 20 1 50 3 3 (.num 9) (.num 9) [.obj []]
      [.obj []] [["### Untitled", "- **ID:** ``", "- **URL:** N/A", ""]]
      [["- **Untitled**", "  ID: ``  |  URL: N/A"]]
      (by decide) (by simp) rfl (by simp) rfl).2⟩

/-- The lines built by `collectionsCore` are all hint-free. -/
theorem collectionsCore_lineOk (page : Int) (envelope itemsJ : Json)
    (ls : List String) (h : collectionsCore page envelope itemsJ = .ok ls) :
    ∀ l ∈ ls, lineOk l := by
  cases itemsJ
  case arr items =>
    cases envelope
    case obj ekvs =>
      cases hbl : mapE collectionBlock items with
      | error e =>
        simp [collectionsCore, Json.asList, Json.get, Bind.bind, Except.bind,
          Functor.map, Except.map, hbl] at h
      | ok blocks =>
        simp [collectionsCore, Json.asList, Json.get, Bind.bind, Except.bind,
          Functor.map, Except.map, pure, Except.pure, hbl] at h
        subst h
        intro l hl
        rcases List.mem_cons.mp hl with rfl | hl2
        · refine lineOk_of_head _ 'F' ?_ (by decide) (by decide)
          repeat apply strHead_append
          rfl
        · rcases List.mem_flatten.mp hl2 with ⟨b, hbmem, hlb⟩
          rcases mapE_ok_mem _ _ _ hbl b hbmem with ⟨a, ha, hfa⟩
          exact collectionBlock_lineOk a b hfa l hlb
    all_goals
      simp [collectionsCore, Json.asList, Json.get, Bind.bind, Except.bind] at h
  all_goals
    simp [collectionsCore, Json.asList, Bind.bind, Except.bind] at h

/-- Every successful `formatCollections` output is either the literal
empty-result sentence or the join of the line list pinned by
`collectionsCore` on the envelope and items the program extracts, and
that list is hint-free. -/
theorem formatCollections_pinned (page : Int) (data : Json) (out : String)
    (h : formatCollections page data = .ok out) :
    out = "No collections found." ∨
    ∃ envelope itemsJ ls,
      data.get "collections" (.obj []) = .ok envelope ∧
      envelope.get "items" (.arr []) = .ok itemsJ ∧
      pyTruthy itemsJ = true ∧
      collectionsCore page envelope itemsJ = .ok ls ∧
      out = joinNL ls ∧ (∀ l ∈ ls, hintFree l) := by
  cases data
  case obj dkvs =>
    cases henv : (List.lookup "collections" dkvs).getD (Json.obj [])
    case obj ekvs =>
      by_cases ht : pyTruthy ((List.lookup "items" ekvs).getD (Json.arr []))
      · cases hcc : collectionsCore page (.obj ekvs)
            ((List.lookup "items" ekvs).getD (Json.arr [])) with
        | error e =>
          simp [formatCollections, Json.get, henv, Bind.bind, Except.bind,
            ht, hcc] at h
        | ok ls =>
          simp [formatCollections, Json.get, henv, Bind.bind, Except.bind,
            pure, Except.pure, ht, hcc] at h
          subst h
          refine Or.inr ⟨.obj ekvs, (List.lookup "items" ekvs).getD (Json.arr []),
            ls, ?_, rfl, ht, hcc, rfl, ?_⟩
          · simp [Json.get, henv]
          · exact fun l hl =>
              lineOk_hintFree l (collectionsCore_lineOk _ _ _ _ hcc l hl)
      · simp [formatCollections, Json.get, henv, Bind.bind, Except.bind,
          pure, Except.pure, ht] at h
        subst h
        exact Or.inl rfl
    all_goals
      simp [formatCollections, Json.get, henv, Bind.bind, Except.bind] at h
  all_goals simp [formatCollections, Json.get, Bind.bind, Except.bind] at h

/-- When the items are truthy, the joined `collectionsCore` lines end
with a newline (the trailing empty line of the last block), so no
hint-shaped string can be a suffix of the output. -/
theorem collectionsCore_last (page : Int) (envelope itemsJ : Json)
    (ls : List String) (h : collectionsCore page envelope itemsJ = .ok ls)
    (ht : pyTruthy itemsJ = true) : strLast (joinNL ls) = some '\n' := by
  cases itemsJ
  case arr items =>
    have hine : items ≠ [] := by
      intro hi
      subst hi
      simp [pyTruthy] at ht
    cases envelope
    case obj ekvs =>
      cases hbl : mapE collectionBlock items with
      | error e =>
        simp [collectionsCore, Json.asList, Json.get, Bind.bind, Except.bind,
          Functor.map, Except.map, hbl] at h
      | ok blocks =>
        simp [collectionsCore, Json.asList, Json.get, Bind.bind, Except.bind,
          Functor.map, Except.map, pure, Except.pure, hbl] at h
        subst h
        have hfl : blocks.flatten.getLast? = some "" :=
          flatten_last blocks (mapE_ne_nil _ _ _ hbl hine) (fun b hbm => by
            rcases mapE_ok_mem _ _ _ hbl b hbm with ⟨a, ha2, hfa⟩
            exact collectionBlock_last a b hfa)
        exact joinNL_cons_last_nl _ _ hfl
    all_goals
      simp [collectionsCore, Json.asList, Json.get, Bind.bind, Except.bind] at h
  all_goals
    simp [collectionsCore, Json.asList, Bind.bind, Except.bind] at h

/-- Claim C8: for every `list_collections` call, whatever the response
body (including `page < pages`), a successful output is either the
empty-result sentence or the join of the line list pinned by
`collectionsCore`, which contains no hint-shaped line — and in either
case the output never ends with a next-page hint of either shape the
server can produce. -/
theorem claim_C8 (key : String) (page : Int) (data : Json) (out : String)
    (hok : (list_collections key page (fun _ => ⟨200, data⟩)).outcome
      = .ok out) :
    (out = "No collections found." ∨
      ∃ envelope itemsJ ls,
        data.get "collections" (.obj []) = .ok envelope ∧
        envelope.get "items" (.arr []) = .ok itemsJ ∧
        pyTruthy itemsJ = true ∧
        collectionsCore page envelope itemsJ = .ok ls ∧
        out = joinNL ls ∧ (∀ l ∈ ls, hintFree l)) ∧
    (∀ q pre : String,
      out ≠ pre ++ ("_Call list_collections again with page=" ++ q
        ++ " for more results._") ∧
      out ≠ pre ++ ("\n_Call list_collections again with page=" ++ q
        ++ " for more results._")) := by
  by_cases hk : key = ""
  · simp [list_collections, runTool, hk] at hok
  · have h0 : (list_collections key page (fun _ => ⟨200, data⟩)).outcome
        = formatCollections page data := runTool_outcome_200 key _ _ _ hk
    have hfc : formatCollections page data = .ok out := h0.symm.trans hok
    have hpin := formatCollections_pinned page data out hfc
    refine ⟨hpin, ?_⟩
    have hc : strLast out ≠ some '_' := by
      rcases hpin with rfl | ⟨envelope, itemsJ, ls, _, _, ht, hcc, rfl, _⟩
      · decide
      · rw [collectionsCore_last page envelope itemsJ ls hcc ht]
        decide
    intro q pre
    exact ⟨not_hint_suffix _ hc _ q pre, not_hint_suffix _ hc _ q pre⟩

/-- Witness for C8 at a concrete multi-page (page 1 of 3) response. -/
theorem claim_C8_witness :
    (joinNL ["Found 9 collection(s) (page 1 of 3):\n", "### Untitled",
        "- **ID:** ``", "- **Published articles:** 0", "- **URL:** N/A", ""]
        = "No collections found." ∨
      ∃ envelope itemsJ ls,
        Json.get (.obj [("collections", .obj [("items", .arr [.obj []]),
            ("count", .num 9), ("page", .num 1), ("pages", .num 3)])])
          "collections" (.obj []) = .ok envelope ∧
        envelope.get "items" (.arr []) = .ok itemsJ ∧
        pyTruthy itemsJ = true ∧
        collectionsCore 1 envelope itemsJ = .ok ls ∧
        joinNL ["Found 9 collection(s) (page 1 of 3):\n", "### Untitled",
          "- **ID:** ``", "- **Published articles:** 0", "- **URL:** N/A", ""]
          = joinNL ls ∧ (∀ l ∈ ls, hintFree l)) ∧
    (∀ q pre : String,
      joinNL ["Found 9 collection(s) (page 1 of 3):\n", "### Untitled",
        "- **ID:** ``", "- **Published articles:** 0", "- **URL:** N/A", ""]
        ≠ pre ++ ("_Call list_collections again with page=" ++ q
          ++ " for more results._") ∧
      joinNL ["Found 9 collection(s) (page 1 of 3):\n", "### Untitled",
        "- **ID:** ``", "- **Published articles:** 0", "- **URL:** N/A", ""]
        ≠ pre ++ ("\n_Call list_collections again with page=" ++ q
          ++ " for more results._")) :=
  claim_C8 "k" 1 (.obj [("collections", .obj [("items", .arr [.obj []]),
      ("count", .num 9), ("page", .num 1), ("pages", .num 3)])])
    (joinNL ["Found 9 collection(s) (page 1 of 3):\n", "### Untitled",
      "- **ID:** ``", "- **Published articles:** 0", "- **URL:** N/A", ""])
    (by rfl)

end HelpScout
